import Mathlib

/-!
Shallow embedding of the CRM job-lifecycle and billing front end.

Monetary values and other JavaScript numbers are modelled as rationals
so that the comparison operators of the source translate exactly.
Form inputs that the source parses with parseFloat, or compares through
the Date constructor, are modelled by small inductive types recording
the parse outcome, including the empty-string and NaN cases.
-/

namespace CRM

/-- JavaScript whitespace test, restricted to the ASCII whitespace
characters a form value can contain. -/
def jsSpace (c : Char) : Bool :=
  c = ' ' || c = '\t' || c = '\n' || c = '\r' || c = '\x0b' || c = '\x0c'

/-- The trim method of JavaScript strings: drop whitespace from both
ends of the character sequence. -/
def jsTrim (s : String) : String :=
  ⟨((s.data.dropWhile jsSpace).reverse.dropWhile jsSpace).reverse⟩

/-! ## Data model shared by Payment.tsx and the JobDetail copy in invoiceService.ts -/

/-- Line item of an invoice, from the InvoiceLineItem interface of
src/services/invoiceService.ts (description, quantity, unit_price). -/
structure InvoiceLineItem where
  description : String
  quantity : ℚ
  unit_price : ℚ
deriving DecidableEq, Repr

/-- Invoice record as the Payment component sees it
(src/components/Payment.tsx, Invoice interface): id, status, subtotal,
tax, lineItems, total_amount, paid_amount. -/
structure Invoice where
  id : ℕ
  status : String
  subtotal : ℚ
  tax : ℚ
  lineItems : List InvoiceLineItem
  total_amount : ℚ
  paid_amount : ℚ
deriving DecidableEq, Repr

/-- Job record as the Payment component sees it
(src/components/Payment.tsx, Job interface): an optional invoice. -/
structure PJob where
  invoice : Option Invoice
deriving DecidableEq, Repr

/-! ## Payment flow (src/components/Payment.tsx) -/

/-- Outcome of reading the paymentAmount text field: the source keeps a
string and runs parseFloat on it.  empty is the empty string, for which
the JavaScript test !paymentAmount succeeds; nan is a non-empty string
whose parseFloat is NaN; num q is a string parsing to the number q. -/
inductive AmountInput where
  | empty
  | nan
  | num (q : ℚ)
deriving DecidableEq, Repr

/-- The two branches that can set newErrors.amount in validatePayment
(src/components/Payment.tsx lines 48-63). -/
inductive AmountError where
  | InvalidAmount
  | ExceedsBalance
deriving DecidableEq, Repr

/-- The branch that sets newErrors.method in validatePayment. -/
inductive MethodError where
  | MethodRequired
deriving DecidableEq, Repr

/-- The newErrors object built by validatePayment: at most one error per
field. -/
structure PaymentErrors where
  amount : Option AmountError
  method : Option MethodError
deriving DecidableEq, Repr

/-- remainingBalance of src/components/Payment.tsx lines 44-46:
total_amount minus paid_amount when the job has an invoice, 0 otherwise. -/
def remainingBalance (job : Option PJob) : ℚ :=
  match job with
  | some j =>
    match j.invoice with
    | some inv => inv.total_amount - inv.paid_amount
    | none => 0
  | none => 0

/-- validatePayment of src/components/Payment.tsx lines 48-63.  The
amount field errors when the input is empty, parses to NaN, or parses to
a number below or equal to 0; otherwise, in an else-if, when the parsed
amount strictly exceeds the remaining balance.  The method field errors
when no payment method is selected (empty string). -/
def validatePayment (amt : AmountInput) (method : String) (remaining : ℚ) :
    PaymentErrors :=
  let amountErr : Option AmountError :=
    match amt with
    | .empty => some .InvalidAmount
    | .nan => some .InvalidAmount
    | .num q =>
      if q ≤ 0 then some .InvalidAmount
      else if remaining < q then some .ExceedsBalance
      else none
  let methodErr : Option MethodError :=
    if method = "" then some .MethodRequired else none
  ⟨amountErr, methodErr⟩

/-- Return value of validatePayment: true when the newErrors object has
no keys (Object.keys(newErrors).length === 0). -/
def paymentValid (e : PaymentErrors) : Bool :=
  e.amount.isNone && e.method.isNone

/-- Render guard of the Payment component, src/components/Payment.tsx
lines 96-102: the component returns null (no payment flow offered) when
the job is null, has no invoice, or total_amount is below or equal to
paid_amount. -/
def paymentFlowOffered (job : Option PJob) : Bool :=
  match job with
  | some j =>
    match j.invoice with
    | some inv => decide (inv.paid_amount < inv.total_amount)
    | none => false
  | none => false

/-- Value of a field of a JSON request body. -/
inductive JsonVal where
  | num (q : ℚ)
  | str (s : String)
deriving DecidableEq, Repr

/-- Request issued by createPayment of src/services/invoiceService.ts
lines 17-20: the invoice id goes into the URL and the second argument is
posted as the body. -/
structure PaymentRequest where
  invoiceId : ℕ
  body : List (String × JsonVal)
deriving DecidableEq, Repr

/-- Number a second parseFloat of the same amount string yields.  The
other two cases are unreachable where this is used: handleConfirmPayment
re-parses the string only after validatePayment has established that it
parses to a positive number. -/
def parseFloatVal : AmountInput → ℚ
  | .num q => q
  | _ => 0

/-- handleConfirmPayment of src/components/Payment.tsx lines 65-94:
returns early when the job or its invoice is missing or validatePayment
fails; otherwise calls createPayment with the invoice id and the body
consisting of the single field amount.  The selected payment method is
not part of the body the source builds. -/
def handleConfirmPayment (job : Option PJob) (amt : AmountInput)
    (method : String) : Option PaymentRequest :=
  match job with
  | none => none
  | some j =>
    match j.invoice with
    | none => none
    | some inv =>
      if paymentValid (validatePayment amt method (remainingBalance (some j))) then
        some ⟨inv.id, [("amount", JsonVal.num (parseFloatVal amt))]⟩
      else none

/-! ## JobDetail copy in src/services/invoiceService.ts -/

/-- Remaining balance rendered by the JobDetail totals section,
src/services/invoiceService.ts lines 757-760: total_amount minus
paid_amount, with no flooring. -/
def displayedRemainingBalance (inv : Invoice) : ℚ :=
  inv.total_amount - inv.paid_amount

/-- Value of a datetime-local input: the empty string, or a parseable
timestamp modelled as an integer (what the Date constructor of the
source compares). -/
inductive TimeInput where
  | empty
  | time (t : ℤ)
deriving DecidableEq, Repr

/-- Timestamp of new Date(s): none models an Invalid Date (NaN time
value), produced for the empty string. -/
def dateValue : TimeInput → Option ℤ
  | .empty => none
  | .time t => some t

/-- JavaScript comparison a >= b on Date objects: numeric comparison of
time values, false whenever either side is NaN. -/
def jsDateGE (a b : Option ℤ) : Bool :=
  match a, b with
  | some x, some y => decide (y ≤ x)
  | _, _ => false

/-- The newErrors object built by validateAppointment. -/
structure AppointmentErrors where
  technician : Option String
  startTime : Option String
  endTime : Option String
deriving DecidableEq, Repr

/-- validateAppointment of src/services/invoiceService.ts lines 116-130:
technician errors when empty after trimming; startTime errors when the
string is empty; endTime errors when the string is empty, or else-if
new Date(startTime) >= new Date(endTime). -/
def validateAppointment (technician : String) (startTime endTime : TimeInput) :
    AppointmentErrors :=
  let techErr := if jsTrim technician = "" then some "Technician name is required" else none
  let startErr := if startTime = .empty then some "Start time is required" else none
  let endErr :=
    match endTime with
    | .empty => some "End time is required"
    | .time te =>
      if jsDateGE (dateValue startTime) (some te) then
        some "End time must be after start time"
      else none
  ⟨techErr, startErr, endErr⟩

/-- Return value of validateAppointment: true when the newErrors object
has no keys. -/
def appointmentValid (e : AppointmentErrors) : Bool :=
  e.technician.isNone && e.startTime.isNone && e.endTime.isNone

/-- Request issued by createAppointment of
src/services/appointmentService.ts: job id plus the payload. -/
structure AppointmentRequest where
  jobId : ℕ
  technician : String
  start_time : TimeInput
  end_time : TimeInput
deriving DecidableEq, Repr

/-- handleCreateAppointment of src/services/invoiceService.ts lines
132-158: returns early when the job is missing or validateAppointment
fails, otherwise calls createAppointment.  The job record itself is only
read here; any status change can come only from the backend in response
to the issued request. -/
def handleCreateAppointment (job : Option ℕ) (technician : String)
    (startTime endTime : TimeInput) : Option AppointmentRequest :=
  match job with
  | none => none
  | some jobId =>
    if appointmentValid (validateAppointment technician startTime endTime) then
      some ⟨jobId, technician, startTime, endTime⟩
    else none

/-- Per-item disjunction inside validateInvoice
(src/services/invoiceService.ts lines 160-174): an item counts as
invalid when its trimmed description is empty, its quantity is below or
equal to 0, or its unit_price is below or equal to 0. -/
def itemInvalid (item : InvoiceLineItem) : Bool :=
  decide (jsTrim item.description = "") || decide (item.quantity ≤ 0) ||
    decide (item.unit_price ≤ 0)

/-- The single aggregate newErrors.lineItems message of validateInvoice:
set when the list is empty or every item is invalid.  No item index
appears in the error. -/
def invoiceErrors (lineItems : List InvoiceLineItem) : Option String :=
  if lineItems.isEmpty || lineItems.all itemInvalid then
    some "Add at least one valid line item with description, quantity, and unit price."
  else none

/-- Return value of validateInvoice of src/services/invoiceService.ts
lines 160-174: true when the newErrors object has no keys. -/
def validateInvoice (lineItems : List InvoiceLineItem) : Bool :=
  (invoiceErrors lineItems).isNone

/-- handleCreateInvoice of src/services/invoiceService.ts lines 176-198:
returns early when the job is missing or validateInvoice fails,
otherwise calls createInvoice with the job id and the line items. -/
def handleCreateInvoice (job : Option ℕ) (lineItems : List InvoiceLineItem) :
    Option (ℕ × List InvoiceLineItem) :=
  match job with
  | none => none
  | some jobId =>
    if validateInvoice lineItems then some (jobId, lineItems) else none

/-! ## Job creation forms -/

/-- Character class complementary to the JavaScript regex class for
whitespace, restricted to the ASCII characters a form can contain. -/
def jsNonSpace (c : Char) : Bool :=
  !(jsSpace c)

/-- Unanchored test of the email pattern of validateForm
(src/unnamed/part_000 line 66): one or more non-space characters, an @
sign, one or more non-space characters, a dot, one or more non-space
characters.  A match exists exactly when some position pAt holds an @
preceded by a non-space character, some later position pDot holds a dot
followed by a non-space character, and every character strictly between
pAt and pDot is non-space with at least one such character. -/
def hasEmailMatch (cs : List Char) : Bool :=
  (List.range cs.length).any fun pDot =>
    (List.range pDot).any fun pAt =>
      decide (1 ≤ pAt) && decide (pAt + 2 ≤ pDot) &&
        decide (pDot + 2 ≤ cs.length) &&
        (cs.getD pAt ' ' = '@') && (cs.getD pDot ' ' = '.') &&
        jsNonSpace (cs.getD (pAt - 1) ' ') &&
        jsNonSpace (cs.getD (pDot + 1) ' ') &&
        (List.range (pDot - pAt - 1)).all fun m =>
          jsNonSpace (cs.getD (pAt + 1 + m) ' ')

/-- The regex test applied to the customer email string. -/
def emailRegexTest (email : String) : Bool :=
  hasEmailMatch email.data

namespace CreateJobFormModal

/-- The newErrors object built by validateForm of src/unnamed/part_000
lines 55-71. -/
structure FormErrors where
  title : Option String
  customerName : Option String
  customerEmail : Option String
deriving DecidableEq, Repr

/-- validateForm of src/unnamed/part_000 lines 55-71: title and customer
name error when empty after trimming; customer email errors when empty
after trimming, or else-if the email pattern does not match. -/
def validateForm (title customerName customerEmail : String) : FormErrors :=
  let titleErr := if jsTrim title = "" then some "Job title is required" else none
  let nameErr := if jsTrim customerName = "" then some "Customer name is required" else none
  let emailErr :=
    if jsTrim customerEmail = "" then some "Email is required"
    else if !(emailRegexTest customerEmail) then some "Invalid email format"
    else none
  ⟨titleErr, nameErr, emailErr⟩

/-- Return value of validateForm: true when the newErrors object has no
keys. -/
def formValid (e : FormErrors) : Bool :=
  e.title.isNone && e.customerName.isNone && e.customerEmail.isNone

/-- Payload of createJob as built by handleSubmit of src/unnamed/part_000
lines 73-114: title, description, and the embedded customer record. -/
structure JobCreateRequest where
  title : String
  description : String
  customerId : ℕ
  customerName : String
  customerEmail : String
  customerPhone : String
deriving DecidableEq, Repr

/-- handleSubmit of src/unnamed/part_000 lines 73-114: returns early
when validateForm fails, otherwise calls createJob with the payload. -/
def handleSubmit (customerId : ℕ)
    (title description customerName customerEmail customerPhone : String) :
    Option JobCreateRequest :=
  if formValid (validateForm title customerName customerEmail) then
    some ⟨title, description, customerId, customerName, customerEmail, customerPhone⟩
  else none

end CreateJobFormModal

namespace CreateJobFormSimple

/-- Payload of createJob as built by handleSubmit of
src/components/CreateJobForm.tsx lines 11-28: title, description, and
the constant customer_id 1.  No customer name or email is part of the
payload. -/
structure SimpleJobRequest where
  title : String
  description : String
  customer_id : ℕ
deriving DecidableEq, Repr

/-- handleSubmit of src/components/CreateJobForm.tsx lines 11-28: calls
createJob unconditionally; the customerName state is collected by the
form but not used, and no email field exists. -/
def handleSubmit (title description customerName : String) :
    Option SimpleJobRequest :=
  some ⟨title, description, 1⟩

/-- Form submission of src/components/CreateJobForm.tsx: the title and
customer name inputs carry the HTML required attribute, so the browser
blocks submission exactly when one of the raw values is the empty
string; any other value, including pure whitespace, reaches
handleSubmit. -/
def submitForm (title description customerName : String) :
    Option SimpleJobRequest :=
  if title = "" || customerName = "" then none
  else handleSubmit title description customerName

end CreateJobFormSimple

/-! ## Job status state machine

The client only issues PATCH requests: updateJobStatus of
src/unnamed/part_000 lines 24-28 sends the requested status to the
backend, and handleStatusChange of src/components/JobDetail.tsx lines
285-300 keeps the client state unchanged when the backend rejects the
request.  The backend handler that decides the transition is not part of
the repository sources, so it is modelled from the specification. -/

/-- Job status as enumerated throughout the sources (STATUS_COLUMNS). -/
inductive JobStatus where
  | NEW
  | SCHEDULED
  | COMPLETED
  | INVOICED
  | PAID
deriving DecidableEq, Repr, Fintype

/-- Position of a status in the order NEW, SCHEDULED, COMPLETED,
INVOICED, PAID. -/
def statusRank : JobStatus → ℕ
  | .NEW => 0
  | .SCHEDULED => 1
  | .COMPLETED => 2
  | .INVOICED => 3
  | .PAID => 4

/-- Successor of a status in the lifecycle order, none for PAID. -/
def nextStatus : JobStatus → Option JobStatus
  | .NEW => some .SCHEDULED
  | .SCHEDULED => some .COMPLETED
  | .COMPLETED => some .INVOICED
  | .INVOICED => some .PAID
  | .PAID => none

/-- Modelled from the spec: the job aggregate as the backend transition
handler (absent from src/) consults it, per the guard column of the
transition table of section 4.1 of the specification: current status,
whether an appointment exists or is being attached, whether an invoice
with valid non-empty line items has been generated, and whether the
invoice is paid in full (paidAmount equal to totalAmount). -/
structure SMJob where
  status : JobStatus
  hasAppointment : Bool
  invoiceGenerated : Bool
  invoicePaidFull : Bool
deriving DecidableEq, Repr, Fintype

/-- Error result of a transition request, carrying the attempted edge. -/
inductive TransitionError where
  | InvalidTransition (fromStatus toStatus : JobStatus)
deriving DecidableEq, Repr

/-- Result of requestTransition: the updated job or a transition error. -/
inductive TransitionResult where
  | ok (job : SMJob)
  | error (e : TransitionError)
deriving DecidableEq, Repr

/-- Modelled from the spec: requestTransition of section 4.1, the
backend status-change handler absent from src/.  A request targeting the
current status is a legal no-op; the four forward edges are allowed when
their guard holds; every other request, and a forward edge whose guard
fails, yields InvalidTransition with the attempted edge. -/
def requestTransition (job : SMJob) (target : JobStatus) : TransitionResult :=
  if target = job.status then .ok job
  else
    match job.status, target with
    | .NEW, .SCHEDULED =>
      if job.hasAppointment then .ok { job with status := .SCHEDULED }
      else .error (.InvalidTransition .NEW .SCHEDULED)
    | .SCHEDULED, .COMPLETED => .ok { job with status := .COMPLETED }
    | .COMPLETED, .INVOICED =>
      if job.invoiceGenerated then .ok { job with status := .INVOICED }
      else .error (.InvalidTransition .COMPLETED .INVOICED)
    | .INVOICED, .PAID =>
      if job.invoicePaidFull then .ok { job with status := .PAID }
      else .error (.InvalidTransition .INVOICED .PAID)
    | s, t => .error (.InvalidTransition s t)

/-- One status-change attempt as driven from handleStatusChange of
src/components/JobDetail.tsx lines 285-300: on success the updated job
replaces the old one, on error the job is left unchanged. -/
def applyStatusChange (job : SMJob) (target : JobStatus) : SMJob :=
  match requestTransition job target with
  | .ok j2 => j2
  | .error _ => job

/-- A whole sequence of status-change attempts. -/
def runTransitions (job : SMJob) (targets : List JobStatus) : SMJob :=
  targets.foldl applyStatusChange job

/-! ## Theorems -/

/-- C1: recordPayment validation.  For every invoice and requested
amount, the request is rejected with InvalidAmount exactly when the
amount is not a positive number (empty, NaN, zero, or negative),
rejected with ExceedsBalance exactly when the amount is positive and
strictly exceeds total_amount minus paid_amount, and an amount exactly
equal to the positive remaining balance produces no amount error. -/
theorem recordPayment_validation (inv : Invoice) (amt : AmountInput) (method : String) :
    ((validatePayment amt method (remainingBalance (some ⟨some inv⟩))).amount
        = some .InvalidAmount ↔
      amt = .empty ∨ amt = .nan ∨ ∃ q, amt = .num q ∧ q ≤ 0) ∧
    ((validatePayment amt method (remainingBalance (some ⟨some inv⟩))).amount
        = some .ExceedsBalance ↔
      ∃ q, amt = .num q ∧ 0 < q ∧ inv.total_amount - inv.paid_amount < q) ∧
    (∀ q : ℚ, amt = .num q → 0 < q → q = inv.total_amount - inv.paid_amount →
      (validatePayment amt method (remainingBalance (some ⟨some inv⟩))).amount = none) := by
  refine ⟨?_, ?_, ?_⟩
  · cases amt with
    | empty => simp [validatePayment, remainingBalance]
    | nan => simp [validatePayment, remainingBalance]
    | num q =>
      simp only [validatePayment, remainingBalance]
      split_ifs with h1 h2 <;> simp_all
  · cases amt with
    | empty => simp [validatePayment, remainingBalance]
    | nan => simp [validatePayment, remainingBalance]
    | num q =>
      simp only [validatePayment, remainingBalance]
      split_ifs with h1 h2 <;> simp_all
  · intro q hq hpos heq
    subst hq
    simp only [validatePayment, remainingBalance]
    rw [if_neg (by linarith), if_neg (by rw [heq]; exact lt_irrefl _)]

/-- Witness for C1 at a concrete invoice with total 110 and paid 0: the
amount 110, exactly the remaining balance, produces no amount error. -/
theorem recordPayment_validation_witness :
    (validatePayment (.num 110) "Card"
        (remainingBalance (some ⟨some ⟨1, "UNPAID", 100, 10, [], 110, 0⟩⟩))).amount = none :=
  (recordPayment_validation ⟨1, "UNPAID", 100, 10, [], 110, 0⟩ (.num 110) "Card").2.2
    110 rfl (by norm_num) (by norm_num)

/-- C2: once paid_amount equals total_amount the payment flow is not
offered (the component renders null) and, even if attempted, every input
fails validation, so handleConfirmPayment never issues a payment request
and paid_amount can never change again through this flow. -/
theorem payment_terminal (inv : Invoice) (h : inv.paid_amount = inv.total_amount) :
    paymentFlowOffered (some ⟨some inv⟩) = false ∧
    ∀ (amt : AmountInput) (method : String),
      handleConfirmPayment (some ⟨some inv⟩) amt method = none := by
  have hrem : remainingBalance (some ⟨some inv⟩) = 0 := by
    simp [remainingBalance, h]
  constructor
  · simp [paymentFlowOffered, h]
  · intro amt method
    cases amt with
    | empty => simp [handleConfirmPayment, validatePayment, paymentValid]
    | nan => simp [handleConfirmPayment, validatePayment, paymentValid]
    | num q =>
      have hval : paymentValid (validatePayment (.num q) method
          (remainingBalance (some ⟨some inv⟩))) = false := by
        simp only [validatePayment, paymentValid, hrem]
        rcases le_or_lt q 0 with hq | hq
        · rw [if_pos hq]; rfl
        · rw [if_neg (not_le.mpr hq), if_pos hq]; rfl
      simp [handleConfirmPayment, hval]

/-- Witness for C2 at a concrete invoice with total 110 and paid 110. -/
theorem payment_terminal_witness :
    paymentFlowOffered (some ⟨some ⟨3, "PAID", 100, 10, [], 110, 110⟩⟩) = false ∧
    handleConfirmPayment (some ⟨some ⟨3, "PAID", 100, 10, [], 110, 110⟩⟩)
      (.num 50) "Card" = none := by
  have h := payment_terminal ⟨3, "PAID", 100, 10, [], 110, 110⟩ (by norm_num)
  exact ⟨h.1, h.2 (.num 50) "Card"⟩

/-- C8: the confirmed-payment request does not carry the selected
payment method.  At a concrete invoice (id 7, total 110, paid 0) with
amount 50 and method Card, handleConfirmPayment issues a request whose
body holds only the amount field and no method field, even though the
same validation rejects the submission when no method is selected. -/
theorem payment_request_drops_method :
    handleConfirmPayment (some ⟨some ⟨7, "UNPAID", 100, 10, [], 110, 0⟩⟩)
        (.num 50) "Card" = some ⟨7, [("amount", JsonVal.num 50)]⟩ ∧
    (∀ v : JsonVal,
      (("method", v) : String × JsonVal) ∉ [(("amount" : String), JsonVal.num 50)]) ∧
    handleConfirmPayment (some ⟨some ⟨7, "UNPAID", 100, 10, [], 110, 0⟩⟩)
        (.num 50) "" = none := by
  refine ⟨?_, ?_, ?_⟩
  · simp only [handleConfirmPayment, remainingBalance, validatePayment, paymentValid,
      parseFloatVal]
    norm_num [show ("Card" : String) ≠ "" from by decide]
  · intro v hv
    simp only [List.mem_singleton, Prod.mk.injEq] at hv
    exact absurd hv.1 (by decide)
  · simp only [handleConfirmPayment, remainingBalance, validatePayment, paymentValid,
      parseFloatVal]
    norm_num

/-- C6 counterexample: the remaining balance the JobDetail totals
section displays is total_amount minus paid_amount with no flooring, so
on an invoice with total 100 and paid 150 it shows -50 rather than 0. -/
theorem displayed_balance_not_floored :
    displayedRemainingBalance ⟨2, "UNPAID", 100, 0, [], 100, 150⟩ = -50 ∧
    displayedRemainingBalance ⟨2, "UNPAID", 100, 0, [], 100, 150⟩ ≠
      max ((100 : ℚ) - 150) 0 := by
  constructor <;> norm_num [displayedRemainingBalance]

/-- C6 amended: the displayed remaining balance equals total_amount
minus paid_amount exactly; whenever paid_amount does not exceed
total_amount it coincides with the floored value and is nonnegative. -/
theorem displayed_balance_under_invariant (inv : Invoice)
    (h : inv.paid_amount ≤ inv.total_amount) :
    displayedRemainingBalance inv = max (inv.total_amount - inv.paid_amount) 0 ∧
    0 ≤ displayedRemainingBalance inv := by
  unfold displayedRemainingBalance
  constructor
  · rw [max_eq_left (by linarith)]
  · linarith

/-- Characterization of a line item the source counts as invalid. -/
theorem itemInvalid_true_iff (i : InvoiceLineItem) :
    itemInvalid i = true ↔
      jsTrim i.description = "" ∨ i.quantity ≤ 0 ∨ i.unit_price ≤ 0 := by
  simp [itemInvalid, or_assoc]

/-- Characterization of a line item the source counts as valid. -/
theorem itemInvalid_false_iff (i : InvoiceLineItem) :
    itemInvalid i = false ↔
      jsTrim i.description ≠ "" ∧ 0 < i.quantity ∧ 0 < i.unit_price := by
  simp [itemInvalid, not_le, not_or, and_assoc]

/-- C3 counterexample: a line-item list that contains an item with an
empty description is not rejected once any other item is fully valid:
validateInvoice only rejects when every item is invalid, so
handleCreateInvoice issues the invoice-creation request for the list
holding the valid item Labor and an item with empty description. -/
theorem invalid_item_not_rejected :
    itemInvalid ⟨"", 1, 10⟩ = true ∧
    handleCreateInvoice (some 1) [⟨"Labor", 1, 50⟩, ⟨"", 1, 10⟩] =
      some (1, [⟨"Labor", 1, 50⟩, ⟨"", 1, 10⟩]) := by
  constructor
  · exact (itemInvalid_true_iff _).mpr (Or.inl (by decide))
  · have h : itemInvalid ⟨"Labor", 1, 50⟩ = false :=
      (itemInvalid_false_iff _).mpr ⟨by decide, by norm_num, by norm_num⟩
    simp [handleCreateInvoice, validateInvoice, invoiceErrors, h]

/-- C3 amended: the empty list is rejected with the single aggregate
line-items error (no item index is named), and so is any list in which
every item is invalid; in both cases no invoice-creation request is
issued. -/
theorem generateInvoice_rejections (jobId : ℕ) (items : List InvoiceLineItem) :
    handleCreateInvoice (some jobId) [] = none ∧
    invoiceErrors [] =
      some "Add at least one valid line item with description, quantity, and unit price." ∧
    (items.all itemInvalid = true → handleCreateInvoice (some jobId) items = none) := by
  refine ⟨?_, ?_, ?_⟩
  · simp [handleCreateInvoice, validateInvoice, invoiceErrors]
  · simp [invoiceErrors]
  · intro h
    simp [handleCreateInvoice, validateInvoice, invoiceErrors, h]

/-- Witness for the amended C3: the singleton list whose item has empty
description, zero quantity and zero price is rejected. -/
theorem generateInvoice_rejections_witness :
    handleCreateInvoice (some 1) [⟨"", 0, 0⟩] = none :=
  (generateInvoice_rejections 1 [⟨"", 0, 0⟩]).2.2
    (by simp [List.all_cons, (itemInvalid_true_iff ⟨"", 0, 0⟩).mpr (Or.inl (by decide))])

/-- C7 counterexample: an item with non-empty description, positive
quantity and zero unit price counts as invalid (the source tests
unit_price below or equal to 0), so the singleton list holding it is
rejected and no invoice-creation request is issued. -/
theorem zero_price_item_rejected :
    itemInvalid ⟨"Part", 1, 0⟩ = true ∧
    handleCreateInvoice (some 1) [⟨"Part", 1, 0⟩] = none := by
  have h : itemInvalid ⟨"Part", 1, 0⟩ = true :=
    (itemInvalid_true_iff _).mpr (Or.inr (Or.inr (by norm_num)))
  exact ⟨h, by simp [handleCreateInvoice, validateInvoice, invoiceErrors, h]⟩

/-- C7 amended: a line item needs a strictly positive unit price to
count as valid; every non-empty list in which each item has a non-empty
trimmed description, positive quantity and strictly positive unit price
is accepted and the invoice-creation request is issued. -/
theorem generateInvoice_accepts_all_valid (jobId : ℕ) (items : List InvoiceLineItem)
    (hne : items ≠ [])
    (hval : ∀ i ∈ items,
      jsTrim i.description ≠ "" ∧ 0 < i.quantity ∧ 0 < i.unit_price) :
    handleCreateInvoice (some jobId) items = some (jobId, items) := by
  cases items with
  | nil => exact absurd rfl hne
  | cons x xs =>
    have hx : itemInvalid x = false :=
      (itemInvalid_false_iff x).mpr (hval x (List.mem_cons_self x xs))
    simp [handleCreateInvoice, validateInvoice, invoiceErrors, List.all_cons, hx]

/-- Witness for the amended C7: a singleton list with item Part,
quantity 2 and price 50 is accepted. -/
theorem generateInvoice_accepts_all_valid_witness :
    handleCreateInvoice (some 2) [⟨"Part", 2, 50⟩] = some (2, [⟨"Part", 2, 50⟩]) :=
  generateInvoice_accepts_all_valid 2 [⟨"Part", 2, 50⟩] (by simp)
    (by
      intro i hi
      simp only [List.mem_singleton] at hi
      subst hi
      exact ⟨by decide, by norm_num, by norm_num⟩)

/-- C5: attachAppointment validation.  A technician name empty after
trimming yields the technician-field error; when both times are present
and endTime is below or equal to startTime the endTime-field error is
produced; and whenever validation fails no appointment-creation request
is issued, so the job record (and its status) is left untouched by the
flow. -/
theorem attachAppointment_validation (technician : String) (s e : TimeInput)
    (jobId : ℕ) :
    (jsTrim technician = "" →
      (validateAppointment technician s e).technician =
        some "Technician name is required") ∧
    (∀ ts te : ℤ, s = .time ts → e = .time te → te ≤ ts →
      (validateAppointment technician s e).endTime =
        some "End time must be after start time") ∧
    (appointmentValid (validateAppointment technician s e) = false →
      handleCreateAppointment (some jobId) technician s e = none) := by
  refine ⟨?_, ?_, ?_⟩
  · intro h
    simp [validateAppointment, h]
  · intro ts te hs he hle
    subst hs; subst he
    simp [validateAppointment, jsDateGE, dateValue, hle]
  · intro h
    simp [handleCreateAppointment, h]

/-- Witness for C5: an appointment ending at time 9 and starting at time
10, with an empty technician name, gets the endTime error and issues no
request. -/
theorem attachAppointment_validation_witness :
    (validateAppointment "" (.time 10) (.time 9)).endTime =
      some "End time must be after start time" ∧
    handleCreateAppointment (some 1) "" (.time 10) (.time 9) = none := by
  have h := attachAppointment_validation "" (.time 10) (.time 9) 1
  exact ⟨h.2.1 10 9 rfl rfl (by norm_num), h.2.2 (by decide)⟩

/-- C10: validateAppointment also produces its own required-field errors
when startTime or endTime is the empty string, and the end-after-start
comparison is evaluated only when endTime is present: with endTime empty
the endTime error is the required message whatever startTime holds, and
with endTime present but startTime empty the comparison against the
invalid date is false, so no endTime error is produced. -/
theorem attachAppointment_required_fields (technician : String) (s e : TimeInput) :
    (s = .empty →
      (validateAppointment technician s e).startTime = some "Start time is required") ∧
    (e = .empty →
      (validateAppointment technician s e).endTime = some "End time is required") ∧
    (∀ te : ℤ, e = .time te → s = .empty →
      (validateAppointment technician s e).endTime = none) := by
  refine ⟨?_, ?_, ?_⟩
  · intro h; subst h; simp [validateAppointment]
  · intro h; subst h; simp [validateAppointment]
  · intro te he hs; subst he; subst hs
    simp [validateAppointment, jsDateGE, dateValue]

/-- Witness for C10: with both time fields empty, both required-field
errors appear, and with only the start empty no endTime error appears. -/
theorem attachAppointment_required_fields_witness :
    (validateAppointment "Bob" .empty .empty).startTime = some "Start time is required" ∧
    (validateAppointment "Bob" .empty .empty).endTime = some "End time is required" ∧
    (validateAppointment "Bob" .empty (.time 9)).endTime = none := by
  have h1 := attachAppointment_required_fields "Bob" .empty .empty
  have h2 := attachAppointment_required_fields "Bob" .empty (.time 9)
  exact ⟨h1.1 rfl, h1.2.1 rfl, h2.2.2 9 rfl rfl⟩

/-- C9 counterexample: the CreateJobForm component of
src/components/CreateJobForm.tsx submits without customer validation: a
customer name consisting of one space passes the HTML required gate, is
empty after trimming, no email is collected at all, and the job-creation
request is still issued. -/
theorem createJob_submits_without_validation :
    jsTrim " " = "" ∧
    CreateJobFormSimple.submitForm "Fix sink" "Leaky kitchen faucet" " " =
      some ⟨"Fix sink", "Leaky kitchen faucet", 1⟩ :=
  ⟨by decide, by decide⟩

/-- C9 amended: the CreateJobForm variant bundled with the job service
(src/unnamed/part_000) does enforce the invariant: its handleSubmit
issues the job-creation request exactly when the trimmed title, trimmed
customer name and trimmed customer email are non-empty and the email
matches the validation pattern. -/
theorem createJob_modal_validation (customerId : ℕ)
    (title description customerName customerEmail customerPhone : String) :
    (CreateJobFormModal.handleSubmit customerId title description customerName
        customerEmail customerPhone).isSome = true ↔
      (jsTrim title ≠ "" ∧ jsTrim customerName ≠ "" ∧ jsTrim customerEmail ≠ "" ∧
        emailRegexTest customerEmail = true) := by
  simp only [CreateJobFormModal.handleSubmit, CreateJobFormModal.formValid,
    CreateJobFormModal.validateForm]
  split_ifs <;> simp_all

/-- Ranks never drop across one status-change attempt: a rejected
request leaves the job unchanged and an accepted one moves at most one
step forward. -/
theorem applyStatusChange_rank (job : SMJob) (t : JobStatus) :
    statusRank job.status ≤ statusRank (applyStatusChange job t).status := by
  revert t; revert job; decide

/-- C4 counterexample: a request targeting the current status is a legal
no-op per the transition table (any to same), although the current
status is never the next status in the lifecycle order, so such a
request does not fail with InvalidTransition as the claim demands. -/
theorem same_status_request_is_noop :
    requestTransition ⟨.SCHEDULED, true, false, false⟩ .SCHEDULED =
      .ok ⟨.SCHEDULED, true, false, false⟩ ∧
    nextStatus .SCHEDULED ≠ some .SCHEDULED := by
  exact ⟨by decide, by decide⟩

/-- C4 amended: a status-change request whose target is neither the
current status (legal no-op) nor the next status in the order NEW,
SCHEDULED, COMPLETED, INVOICED, PAID fails with InvalidTransition
carrying the attempted edge; every accepted request keeps the status or
moves it to the next one; and over any sequence of requests the rank of
the visited statuses never decreases. -/
theorem status_transitions_monotone (job : SMJob) (target : JobStatus)
    (targets : List JobStatus) :
    (target ≠ job.status → nextStatus job.status ≠ some target →
      requestTransition job target = .error (.InvalidTransition job.status target)) ∧
    (∀ job2, requestTransition job target = .ok job2 →
      job2.status = job.status ∨ nextStatus job.status = some job2.status) ∧
    statusRank job.status ≤ statusRank (runTransitions job targets).status := by
  refine ⟨?_, ?_, ?_⟩
  · revert target; revert job; decide
  · revert target; revert job; decide
  · induction targets generalizing job with
    | nil => exact le_refl _
    | cons t ts ih =>
      exact le_trans (applyStatusChange_rank job t) (ih (applyStatusChange job t))

/-- Witness for the amended C4: from NEW, the skipping request to
COMPLETED fails with InvalidTransition. -/
theorem status_transitions_monotone_witness :
    requestTransition ⟨.NEW, false, false, false⟩ .COMPLETED =
      .error (.InvalidTransition .NEW .COMPLETED) :=
  (status_transitions_monotone ⟨.NEW, false, false, false⟩ .COMPLETED []).1
    (by decide) (by decide)

/-- Witness for the amended C6 at a concrete invoice with total 110 and
paid 60. -/
theorem displayed_balance_under_invariant_witness :
    displayedRemainingBalance ⟨2, "PARTIALLY_PAID", 100, 10, [], 110, 60⟩ =
      max ((⟨2, "PARTIALLY_PAID", 100, 10, [], 110, 60⟩ : Invoice).total_amount -
        (⟨2, "PARTIALLY_PAID", 100, 10, [], 110, 60⟩ : Invoice).paid_amount) 0 ∧
    0 ≤ displayedRemainingBalance ⟨2, "PARTIALLY_PAID", 100, 10, [], 110, 60⟩ :=
  displayed_balance_under_invariant ⟨2, "PARTIALLY_PAID", 100, 10, [], 110, 60⟩
    (by norm_num)

end CRM
